import Mathlib

/-!
Verification of the physics core of the momentum simulator
(`src/lib/physics.ts`): state model, initializer, and the per-tick
state-update function, embedded over the reals.  Numeric fields of the
TypeScript code are modelled as real numbers; `Math.PI / 2` becomes
`Real.pi / 2`.
-/

/-- Simulation parameters (`interface SimulationParams`). -/
structure SimulationParams where
  doorMass : ℝ
  doorWidth : ℝ
  slidingMass : ℝ
  initialRadius : ℝ
  finalRadius : ℝ
  slideDuration : ℝ
  initialAngularVelocity : ℝ

/-- The `phase` field of the simulation state. -/
inductive Phase where
  | idle
  | phase1
  | phase2
deriving DecidableEq

/-- State of door A (the one with the sliding mass). -/
structure DoorAState where
  angle : ℝ
  angularVelocity : ℝ
  momentOfInertia : ℝ
  angularMomentum : ℝ
  massRadius : ℝ

/-- State of door B (plain rigid door). -/
structure DoorBState where
  angle : ℝ
  angularVelocity : ℝ
  momentOfInertia : ℝ
  angularMomentum : ℝ

/-- Full simulation state (`interface SimulationState`). -/
structure SimulationState where
  time : ℝ
  isRunning : Bool
  phase : Phase
  doorA : DoorAState
  doorB : DoorBState

/-- `calculateDoorMomentOfInertia`: thin rod about its end. -/
noncomputable def calculateDoorMomentOfInertia (mass width : ℝ) : ℝ :=
  (1 / 3) * mass * width * width

/-- `calculateTotalMomentOfInertia`: door plus point mass at `radius`. -/
noncomputable def calculateTotalMomentOfInertia (doorMomentOfInertia slidingMass radius : ℝ) : ℝ :=
  doorMomentOfInertia + slidingMass * radius * radius

/-- `calculateAngularVelocity`: omega from conserved angular momentum. -/
noncomputable def calculateAngularVelocity (angularMomentum momentOfInertia : ℝ) : ℝ :=
  angularMomentum / momentOfInertia

/-- `interpolateRadius`: eased interpolation of the sliding-mass radius.
The easing is applied to the raw `progress` argument; only the eased
value is clamped (to `[0,1]`) before blending. -/
noncomputable def interpolateRadius (initialRadius finalRadius progress : ℝ) : ℝ :=
  let eased := if progress < 0.5 then 2 * progress * progress
    else 1 - (-2 * progress + 2) ^ 2 / 2
  initialRadius + (finalRadius - initialRadius) * min 1 (max 0 eased)

/-- `defaultParams` from the source. -/
def defaultParams : SimulationParams where
  doorMass := 30
  doorWidth := 1.0
  slidingMass := 8
  initialRadius := 0.1
  finalRadius := 0.9
  slideDuration := 1.2
  initialAngularVelocity := 2.0

/-- `MAX_DOOR_ANGLE = Math.PI / 2`. -/
noncomputable def MAX_DOOR_ANGLE : ℝ := Real.pi / 2

/-- `initializeState`: fresh state for a run. -/
noncomputable def initializeState (params : SimulationParams) : SimulationState :=
  let doorMomentOfInertia := calculateDoorMomentOfInertia params.doorMass params.doorWidth
  let initialTotalMomentOfInertia :=
    calculateTotalMomentOfInertia doorMomentOfInertia params.slidingMass params.initialRadius
  let angularMomentum := initialTotalMomentOfInertia * params.initialAngularVelocity
  { time := 0
    isRunning := false
    phase := .idle
    doorA :=
      { angle := 0
        angularVelocity := params.initialAngularVelocity
        momentOfInertia := initialTotalMomentOfInertia
        angularMomentum := angularMomentum
        massRadius := params.initialRadius }
    doorB :=
      { angle := 0
        angularVelocity := params.initialAngularVelocity
        momentOfInertia := doorMomentOfInertia
        angularMomentum := doorMomentOfInertia * params.initialAngularVelocity } }

/-- `updateState`: advance the simulation by `deltaTime`. -/
noncomputable def updateState (state : SimulationState) (params : SimulationParams)
    (deltaTime : ℝ) : SimulationState :=
  if state.isRunning = false then state
  else if MAX_DOOR_ANGLE ≤ state.doorA.angle ∧ MAX_DOOR_ANGLE ≤ state.doorB.angle then
    { state with
      isRunning := false
      phase := .phase2
      doorA := { state.doorA with angularVelocity := 0 }
      doorB := { state.doorB with angularVelocity := 0 } }
  else
    let newTime := state.time + deltaTime
    let doorMomentOfInertia := calculateDoorMomentOfInertia params.doorMass params.doorWidth
    let slideProgress := min 1 (newTime / params.slideDuration)
    let newMassRadius :=
      interpolateRadius params.initialRadius params.finalRadius slideProgress
    let newMomentOfInertiaA :=
      calculateTotalMomentOfInertia doorMomentOfInertia params.slidingMass newMassRadius
    let newAngularVelocityA := if MAX_DOOR_ANGLE ≤ state.doorA.angle then 0
      else calculateAngularVelocity state.doorA.angularMomentum newMomentOfInertiaA
    let newAngleA := if MAX_DOOR_ANGLE ≤ state.doorA.angle then MAX_DOOR_ANGLE
      else min MAX_DOOR_ANGLE (state.doorA.angle + newAngularVelocityA * deltaTime)
    let newAngularVelocityB :=
      if MAX_DOOR_ANGLE ≤ state.doorB.angle then 0 else state.doorB.angularVelocity
    let newAngleB := if MAX_DOOR_ANGLE ≤ state.doorB.angle then MAX_DOOR_ANGLE
      else min MAX_DOOR_ANGLE (state.doorB.angle + newAngularVelocityB * deltaTime)
    let phase : Phase :=
      if MAX_DOOR_ANGLE ≤ newAngleA ∧ MAX_DOOR_ANGLE ≤ newAngleB then .phase2 else .phase1
    { state with
      time := newTime
      phase := phase
      doorA :=
        { angle := newAngleA
          angularVelocity := newAngularVelocityA
          momentOfInertia := newMomentOfInertiaA
          angularMomentum := state.doorA.angularMomentum
          massRadius := newMassRadius }
      doorB :=
        { angle := newAngleB
          angularVelocity := newAngularVelocityB
          momentOfInertia := state.doorB.momentOfInertia
          angularMomentum := state.doorB.angularMomentum } }

/-- The host's start action (`Index.tsx`): set `isRunning` and `phase`. -/
def startState (s : SimulationState) : SimulationState :=
  { s with isRunning := true, phase := .phase1 }

/-- States reachable from `initializeState params` through the host's
start action and `updateState` calls with non-negative `deltaTime`. -/
inductive Reachable (params : SimulationParams) : SimulationState → Prop where
  | init : Reachable params (initializeState params)
  | start {s : SimulationState} :
      Reachable params s → Reachable params (startState s)
  | advance {s : SimulationState} {dt : ℝ} :
      Reachable params s → 0 ≤ dt → Reachable params (updateState s params dt)

/-- The documented sign constraints on parameters (spec section 3). -/
def ValidParams (p : SimulationParams) : Prop :=
  0 < p.doorMass ∧ 0 < p.doorWidth ∧ 0 ≤ p.slidingMass ∧ 0 ≤ p.initialRadius ∧
    p.initialRadius < p.finalRadius ∧ 0 < p.slideDuration ∧ 0 < p.initialAngularVelocity

/-- Sliding-mass radius as a function of elapsed time, as the update
step computes it. -/
noncomputable def radiusAt (p : SimulationParams) (t : ℝ) : ℝ :=
  interpolateRadius p.initialRadius p.finalRadius (min 1 (t / p.slideDuration))

/-- Spec-described variant of `interpolateRadius` in which `progress` is
also clamped to `[0,1]` before the easing is applied. -/
noncomputable def interpolateRadiusPreClamped (initialRadius finalRadius progress : ℝ) : ℝ :=
  let p := min 1 (max 0 progress)
  let eased := if p < 0.5 then 2 * p * p
    else 1 - (-2 * p + 2) ^ 2 / 2
  initialRadius + (finalRadius - initialRadius) * min 1 (max 0 eased)

/-- The easing function used inside `interpolateRadius`. -/
noncomputable def easeInOut (progress : ℝ) : ℝ :=
  if progress < 0.5 then 2 * progress * progress
  else 1 - (-2 * progress + 2) ^ 2 / 2

/-- The normal-integration branch of `updateState`, as a named function
so that its fields can be inspected one at a time. -/
noncomputable def stepRun (s : SimulationState) (p : SimulationParams) (dt : ℝ) :
    SimulationState :=
  let newTime := s.time + dt
  let doorMomentOfInertia := calculateDoorMomentOfInertia p.doorMass p.doorWidth
  let slideProgress := min 1 (newTime / p.slideDuration)
  let newMassRadius :=
    interpolateRadius p.initialRadius p.finalRadius slideProgress
  let newMomentOfInertiaA :=
    calculateTotalMomentOfInertia doorMomentOfInertia p.slidingMass newMassRadius
  let newAngularVelocityA := if MAX_DOOR_ANGLE ≤ s.doorA.angle then 0
    else calculateAngularVelocity s.doorA.angularMomentum newMomentOfInertiaA
  let newAngleA := if MAX_DOOR_ANGLE ≤ s.doorA.angle then MAX_DOOR_ANGLE
    else min MAX_DOOR_ANGLE (s.doorA.angle + newAngularVelocityA * dt)
  let newAngularVelocityB :=
    if MAX_DOOR_ANGLE ≤ s.doorB.angle then 0 else s.doorB.angularVelocity
  let newAngleB := if MAX_DOOR_ANGLE ≤ s.doorB.angle then MAX_DOOR_ANGLE
    else min MAX_DOOR_ANGLE (s.doorB.angle + newAngularVelocityB * dt)
  let phase : Phase :=
    if MAX_DOOR_ANGLE ≤ newAngleA ∧ MAX_DOOR_ANGLE ≤ newAngleB then .phase2 else .phase1
  { s with
    time := newTime
    phase := phase
    doorA :=
      { angle := newAngleA
        angularVelocity := newAngularVelocityA
        momentOfInertia := newMomentOfInertiaA
        angularMomentum := s.doorA.angularMomentum
        massRadius := newMassRadius }
    doorB :=
      { angle := newAngleB
        angularVelocity := newAngularVelocityB
        momentOfInertia := s.doorB.momentOfInertia
        angularMomentum := s.doorB.angularMomentum } }

/-- Invariant holding in every reachable state. -/
structure StateInv (p : SimulationParams) (s : SimulationState) : Prop where
  time_nonneg : 0 ≤ s.time
  angleA_le : s.doorA.angle ≤ MAX_DOOR_ANGLE
  angleB_le : s.doorB.angle ≤ MAX_DOOR_ANGLE
  momA : s.doorA.angularMomentum =
    calculateTotalMomentOfInertia (calculateDoorMomentOfInertia p.doorMass p.doorWidth)
      p.slidingMass p.initialRadius * p.initialAngularVelocity
  momB : s.doorB.angularMomentum =
    calculateDoorMomentOfInertia p.doorMass p.doorWidth * p.initialAngularVelocity
  inertiaB : s.doorB.momentOfInertia = calculateDoorMomentOfInertia p.doorMass p.doorWidth
  radius_eq : s.doorA.massRadius = radiusAt p s.time
  velB_run : s.doorB.angle < MAX_DOOR_ANGLE →
    s.doorB.angularVelocity = p.initialAngularVelocity
  velB_stop : s.isRunning = false → MAX_DOOR_ANGLE ≤ s.doorB.angle →
    s.doorB.angularVelocity = 0
  consistentA : s.doorA.angle < MAX_DOOR_ANGLE →
    s.doorA.angularVelocity * s.doorA.momentOfInertia = s.doorA.angularMomentum

/-- Concrete running state with both doors past the closing limit. -/
def termState : SimulationState := ⟨5, true, .phase1, ⟨2, 1, 1, 1, 1⟩, ⟨2, 1, 1, 1⟩⟩

/-- Concrete running state one tick away from both doors reaching the
closing limit. -/
noncomputable def nearTermState : SimulationState :=
  ⟨2, true, .phase1, ⟨3/2, 1, 412/25, 504/25, 9/10⟩, ⟨3/2, 2, 10, 20⟩⟩

/-- Concrete running state with door A stopped at the limit and door B
still moving. -/
noncomputable def stoppedAState : SimulationState :=
  ⟨2, true, .phase1, ⟨2, 0, 412/25, 504/25, 9/10⟩, ⟨1, 2, 10, 20⟩⟩

/-- Iterated `updateState`: `iterAdvance p dt n s` advances `s` by `n`
ticks of `dt` seconds. -/
noncomputable def iterAdvance (p : SimulationParams) (dt : ℝ) :
    ℕ → SimulationState → SimulationState
  | 0, s => s
  | n + 1, s => iterAdvance p dt n (updateState s p dt)

/-! ### Claim C8: the concrete default-parameter trajectory -/

/-- Tick 0 of the default run with `deltaTime = 0.1`. -/
noncomputable def traj0 : SimulationState :=
  ⟨0, true, .phase1,
    ⟨0, 2, 252/25, 504/25, 1/10⟩,
    ⟨0, 2, 10, 20⟩⟩

/-- Tick 1 of the default run with `deltaTime = 0.1`. -/
noncomputable def traj1 : SimulationState :=
  ⟨1/10, true, .phase1,
    ⟨10206/51125, 20412/10225, 818/81, 504/25, 1/9⟩,
    ⟨1/5, 2, 10, 20⟩⟩

/-- Tick 2 of the default run with `deltaTime = 0.1`. -/
noncomputable def traj2 : SimulationState :=
  ⟨1/5, true, .phase1,
    ⟨104708457/263140375, 10206/5147, 20588/2025, 504/25, 13/90⟩,
    ⟨2/5, 2, 10, 20⟩⟩

/-- Tick 3 of the default run with `deltaTime = 0.1`. -/
noncomputable def traj3 : SimulationState :=
  ⟨3/10, true, .phase1,
    ⟨6712842801/11315036125, 84/43, 258/25, 504/25, 1/5⟩,
    ⟨3/5, 2, 10, 20⟩⟩

/-- Tick 4 of the default run with `deltaTime = 0.1`. -/
noncomputable def traj4 : SimulationState :=
  ⟨2/5, true, .phase1,
    ⟨44306656674/56575180625, 10206/5375, 860/81, 504/25, 5/18⟩,
    ⟨4/5, 2, 10, 20⟩⟩

/-- Tick 5 of the default run with `deltaTime = 0.1`. -/
noncomputable def traj5 : SimulationState :=
  ⟨1/2, true, .phase1,
    ⟨615304652631144/638224612630625, 20412/11281, 22562/2025, 504/25, 17/45⟩,
    ⟨1, 2, 10, 20⟩⟩

/-- Tick 6 of the default run with `deltaTime = 0.1`. -/
noncomputable def traj6 : SimulationState :=
  ⟨3/5, true, .phase1,
    ⟨722526387553089/638224612630625, 42/25, 12, 504/25, 1/2⟩,
    ⟨6/5, 2, 10, 20⟩⟩

/-- Tick 7 of the default run with `deltaTime = 0.1`. -/
noncomputable def traj7 : SimulationState :=
  ⟨7/10, true, .phase1,
    ⟨10884166504643144979/8463496588094718125, 20412/13261, 26522/2025, 504/25, 28/45⟩,
    ⟨7/5, 2, 10, 20⟩⟩

/-- Tick 8 of the default run with `deltaTime = 0.1`. -/
noncomputable def traj8 : SimulationState :=
  ⟨4/5, true, .phase1,
    ⟨495609938792137340244/347003360111883443125, 1458/1025, 1148/81, 504/25, 13/18⟩,
    ⟨MAX_DOOR_ANGLE, 2, 10, 20⟩⟩

/-- Tick 9 of the default run with `deltaTime = 0.1`. -/
noncomputable def traj9 : SimulationState :=
  ⟨9/10, true, .phase1,
    ⟨1625631160421165397982/1041010080335650329375, 4/3, 378/25, 504/25, 4/5⟩,
    ⟨MAX_DOOR_ANGLE, 0, 10, 20⟩⟩

/-- Tick 10 of the default run with `deltaTime = 0.1`. -/
noncomputable def traj10 : SimulationState :=
  ⟨1, true, .phase2,
    ⟨MAX_DOOR_ANGLE, 10206/8027, 32108/2025, 504/25, 77/90⟩,
    ⟨MAX_DOOR_ANGLE, 0, 10, 20⟩⟩

/-- Tick 11 of the default run with `deltaTime = 0.1`. -/
noncomputable def traj11 : SimulationState :=
  ⟨1, false, .phase2,
    ⟨MAX_DOOR_ANGLE, 0, 32108/2025, 504/25, 77/90⟩,
    ⟨MAX_DOOR_ANGLE, 0, 10, 20⟩⟩

/-! ### Basic facts about the embedded functions -/

lemma lt_maxDoorAngle {x : ℝ} (h : x ≤ 1.570796) : x < MAX_DOOR_ANGLE := by
  have hpi := Real.pi_gt_d6
  unfold MAX_DOOR_ANGLE
  nlinarith

lemma maxDoorAngle_le {x : ℝ} (h : 1.5707965 ≤ x) : MAX_DOOR_ANGLE ≤ x := by
  have hpi := Real.pi_lt_d6
  unfold MAX_DOOR_ANGLE
  nlinarith

lemma maxDoorAngle_pos : 0 < MAX_DOOR_ANGLE := by
  unfold MAX_DOOR_ANGLE
  positivity

lemma interpolateRadius_zero (r1 r2 : ℝ) : interpolateRadius r1 r2 0 = r1 := by
  simp only [interpolateRadius]
  norm_num

lemma easeInOut_le_of_le {x y : ℝ} (hx : 0 ≤ x) (hxy : x ≤ y) (hy : y ≤ 1) :
    easeInOut x ≤ easeInOut y := by
  unfold easeInOut
  split_ifs with h1 h2 h2
  · nlinarith
  · nlinarith [sq_nonneg (-2 * y + 2)]
  · linarith
  · nlinarith

lemma interpolateRadius_eq_ease (r1 r2 progress : ℝ) :
    interpolateRadius r1 r2 progress =
      r1 + (r2 - r1) * min 1 (max 0 (easeInOut progress)) := rfl

lemma interpolateRadius_mono_prog {r1 r2 x y : ℝ} (hr : r1 ≤ r2)
    (hx : 0 ≤ x) (hxy : x ≤ y) (hy : y ≤ 1) :
    interpolateRadius r1 r2 x ≤ interpolateRadius r1 r2 y := by
  rw [interpolateRadius_eq_ease, interpolateRadius_eq_ease]
  have he : easeInOut x ≤ easeInOut y := easeInOut_le_of_le hx hxy hy
  have hm : min 1 (max 0 (easeInOut x)) ≤ min 1 (max 0 (easeInOut y)) :=
    min_le_min le_rfl (max_le_max le_rfl he)
  have hsub : 0 ≤ r2 - r1 := by linarith
  nlinarith

lemma radiusAt_mono {p : SimulationParams} (hT : 0 < p.slideDuration)
    (hr : p.initialRadius ≤ p.finalRadius) {t t' : ℝ} (ht : 0 ≤ t) (htt : t ≤ t') :
    radiusAt p t ≤ radiusAt p t' := by
  unfold radiusAt
  refine interpolateRadius_mono_prog hr ?_ ?_ (min_le_left _ _)
  · exact le_min (by norm_num) (div_nonneg ht hT.le)
  · exact min_le_min le_rfl ((div_le_div_iff_of_pos_right hT).mpr htt)

lemma radiusAt_zero (p : SimulationParams) : radiusAt p 0 = p.initialRadius := by
  unfold radiusAt
  rw [zero_div]
  simpa using interpolateRadius_zero p.initialRadius p.finalRadius

/-! ### Branch lemmas for `updateState` -/

lemma updateState_not_running {s : SimulationState} (p : SimulationParams) (dt : ℝ)
    (h : s.isRunning = false) : updateState s p dt = s := by
  rw [updateState, if_pos h]

lemma updateState_terminal {s : SimulationState} (p : SimulationParams) (dt : ℝ)
    (hrun : s.isRunning = true) (hA : MAX_DOOR_ANGLE ≤ s.doorA.angle)
    (hB : MAX_DOOR_ANGLE ≤ s.doorB.angle) :
    updateState s p dt =
      { s with
        isRunning := false
        phase := .phase2
        doorA := { s.doorA with angularVelocity := 0 }
        doorB := { s.doorB with angularVelocity := 0 } } := by
  rw [updateState, if_neg (by simp [hrun]), if_pos ⟨hA, hB⟩]

lemma updateState_run {s : SimulationState} (p : SimulationParams) (dt : ℝ)
    (hrun : s.isRunning = true)
    (hnt : ¬(MAX_DOOR_ANGLE ≤ s.doorA.angle ∧ MAX_DOOR_ANGLE ≤ s.doorB.angle)) :
    updateState s p dt = stepRun s p dt := by
  rw [updateState, if_neg (by simp [hrun]), if_neg hnt]
  rfl

lemma stepRun_time (s : SimulationState) (p : SimulationParams) (dt : ℝ) :
    (stepRun s p dt).time = s.time + dt := rfl

lemma stepRun_isRunning (s : SimulationState) (p : SimulationParams) (dt : ℝ) :
    (stepRun s p dt).isRunning = s.isRunning := rfl

lemma stepRun_massRadius (s : SimulationState) (p : SimulationParams) (dt : ℝ) :
    (stepRun s p dt).doorA.massRadius = radiusAt p (s.time + dt) := rfl

lemma stepRun_inertiaA (s : SimulationState) (p : SimulationParams) (dt : ℝ) :
    (stepRun s p dt).doorA.momentOfInertia =
      calculateTotalMomentOfInertia (calculateDoorMomentOfInertia p.doorMass p.doorWidth)
        p.slidingMass (radiusAt p (s.time + dt)) := rfl

lemma stepRun_momA (s : SimulationState) (p : SimulationParams) (dt : ℝ) :
    (stepRun s p dt).doorA.angularMomentum = s.doorA.angularMomentum := rfl

lemma stepRun_velA (s : SimulationState) (p : SimulationParams) (dt : ℝ) :
    (stepRun s p dt).doorA.angularVelocity =
      if MAX_DOOR_ANGLE ≤ s.doorA.angle then 0
      else calculateAngularVelocity s.doorA.angularMomentum
        (calculateTotalMomentOfInertia (calculateDoorMomentOfInertia p.doorMass p.doorWidth)
          p.slidingMass (radiusAt p (s.time + dt))) := rfl

lemma stepRun_angleA (s : SimulationState) (p : SimulationParams) (dt : ℝ) :
    (stepRun s p dt).doorA.angle =
      if MAX_DOOR_ANGLE ≤ s.doorA.angle then MAX_DOOR_ANGLE
      else min MAX_DOOR_ANGLE (s.doorA.angle + (stepRun s p dt).doorA.angularVelocity * dt) := by
  rw [stepRun_velA]
  by_cases hA : MAX_DOOR_ANGLE ≤ s.doorA.angle
  · show (if MAX_DOOR_ANGLE ≤ s.doorA.angle then MAX_DOOR_ANGLE else _) = _
    simp only [if_pos hA]
  · show (if MAX_DOOR_ANGLE ≤ s.doorA.angle then MAX_DOOR_ANGLE else _) = _
    simp only [if_neg hA]
    rfl

lemma stepRun_velB (s : SimulationState) (p : SimulationParams) (dt : ℝ) :
    (stepRun s p dt).doorB.angularVelocity =
      if MAX_DOOR_ANGLE ≤ s.doorB.angle then 0 else s.doorB.angularVelocity := rfl

lemma stepRun_angleB (s : SimulationState) (p : SimulationParams) (dt : ℝ) :
    (stepRun s p dt).doorB.angle =
      if MAX_DOOR_ANGLE ≤ s.doorB.angle then MAX_DOOR_ANGLE
      else min MAX_DOOR_ANGLE (s.doorB.angle + s.doorB.angularVelocity * dt) := by
  by_cases hB : MAX_DOOR_ANGLE ≤ s.doorB.angle
  · show (if MAX_DOOR_ANGLE ≤ s.doorB.angle then MAX_DOOR_ANGLE else _) = _
    simp only [if_pos hB]
  · show (if MAX_DOOR_ANGLE ≤ s.doorB.angle then MAX_DOOR_ANGLE else _) = _
    simp only [if_neg hB]

lemma stepRun_inertiaB (s : SimulationState) (p : SimulationParams) (dt : ℝ) :
    (stepRun s p dt).doorB.momentOfInertia = s.doorB.momentOfInertia := rfl

lemma stepRun_momB (s : SimulationState) (p : SimulationParams) (dt : ℝ) :
    (stepRun s p dt).doorB.angularMomentum = s.doorB.angularMomentum := rfl

lemma stepRun_phase (s : SimulationState) (p : SimulationParams) (dt : ℝ) :
    (stepRun s p dt).phase =
      if MAX_DOOR_ANGLE ≤ (stepRun s p dt).doorA.angle ∧
          MAX_DOOR_ANGLE ≤ (stepRun s p dt).doorB.angle then .phase2 else .phase1 := rfl

lemma updateState_momentumA (s : SimulationState) (p : SimulationParams) (dt : ℝ) :
    (updateState s p dt).doorA.angularMomentum = s.doorA.angularMomentum := by
  rw [updateState]
  split_ifs <;> rfl

lemma updateState_momentumB (s : SimulationState) (p : SimulationParams) (dt : ℝ) :
    (updateState s p dt).doorB.angularMomentum = s.doorB.angularMomentum := by
  rw [updateState]
  split_ifs <;> rfl

/-! ### Positivity facts -/

lemma doorInertia_pos {p : SimulationParams} (hv : ValidParams p) :
    0 < calculateDoorMomentOfInertia p.doorMass p.doorWidth := by
  obtain ⟨hM, hW, -⟩ := hv
  unfold calculateDoorMomentOfInertia
  positivity

lemma totalInertia_pos {p : SimulationParams} (hv : ValidParams p) (r : ℝ) :
    0 < calculateTotalMomentOfInertia
        (calculateDoorMomentOfInertia p.doorMass p.doorWidth) p.slidingMass r := by
  have hd := doorInertia_pos hv
  obtain ⟨-, -, hm, -⟩ := hv
  unfold calculateTotalMomentOfInertia
  nlinarith [mul_self_nonneg r, mul_nonneg hm (mul_self_nonneg r)]

lemma momentumA_pos {p : SimulationParams} (hv : ValidParams p) :
    0 < calculateTotalMomentOfInertia
        (calculateDoorMomentOfInertia p.doorMass p.doorWidth) p.slidingMass
        p.initialRadius * p.initialAngularVelocity := by
  have h1 := totalInertia_pos hv p.initialRadius
  have h2 := hv.2.2.2.2.2.2
  positivity

/-! ### Reachability invariant -/

lemma inv_init (p : SimulationParams) : StateInv p (initializeState p) := by
  refine ⟨le_refl 0, maxDoorAngle_pos.le, maxDoorAngle_pos.le, rfl, rfl, rfl, ?_, ?_, ?_, ?_⟩
  · show p.initialRadius = radiusAt p 0
    exact (radiusAt_zero p).symm
  · intro _
    rfl
  · intro _ h2
    exact absurd (lt_of_lt_of_le maxDoorAngle_pos h2) (lt_irrefl 0)
  · intro _
    exact mul_comm _ _

lemma inv_start {p : SimulationParams} {s : SimulationState} (h : StateInv p s) :
    StateInv p (startState s) :=
  ⟨h.time_nonneg, h.angleA_le, h.angleB_le, h.momA, h.momB, h.inertiaB, h.radius_eq,
    h.velB_run, fun hf _ => absurd hf (by simp [startState]), h.consistentA⟩

lemma inv_advance {p : SimulationParams} {s : SimulationState} {dt : ℝ}
    (hv : ValidParams p) (h : StateInv p s) (hdt : 0 ≤ dt) : StateInv p (updateState s p dt) := by
  by_cases hrun : s.isRunning = true
  · by_cases hterm : MAX_DOOR_ANGLE ≤ s.doorA.angle ∧ MAX_DOOR_ANGLE ≤ s.doorB.angle
    · rw [updateState_terminal p dt hrun hterm.1 hterm.2]
      exact ⟨h.time_nonneg, h.angleA_le, h.angleB_le, h.momA, h.momB, h.inertiaB,
        h.radius_eq,
        fun hlt => absurd hterm.2 (not_le.mpr hlt),
        fun _ _ => rfl,
        fun hlt => absurd hterm.1 (not_le.mpr hlt)⟩
    · rw [updateState_run p dt hrun hterm]
      constructor
      · rw [stepRun_time]
        exact add_nonneg h.time_nonneg hdt
      · rw [stepRun_angleA]
        split_ifs with hA
        · exact le_refl _
        · exact min_le_left _ _
      · rw [stepRun_angleB]
        split_ifs with hB
        · exact le_refl _
        · exact min_le_left _ _
      · rw [stepRun_momA]
        exact h.momA
      · rw [stepRun_momB]
        exact h.momB
      · rw [stepRun_inertiaB]
        exact h.inertiaB
      · rw [stepRun_massRadius, stepRun_time]
      · rw [stepRun_angleB, stepRun_velB]
        split_ifs with hB
        · intro hlt
          exact absurd hlt (lt_irrefl _)
        · intro _
          exact h.velB_run (not_le.mp hB)
      · rw [stepRun_isRunning]
        intro hf
        rw [hrun] at hf
        exact absurd hf (by simp)
      · rw [stepRun_angleA, stepRun_velA, stepRun_inertiaA, stepRun_momA]
        split_ifs with hA
        · intro hlt
          exact absurd hlt (lt_irrefl _)
        · intro _
          unfold calculateAngularVelocity
          exact div_mul_cancel₀ _ (ne_of_gt (totalInertia_pos hv _))
  · have hne : s.isRunning = false := by
      revert hrun
      cases s.isRunning <;> simp
    rw [updateState_not_running p dt hne]
    exact h

/-- Every reachable state satisfies the invariant. -/
lemma reachable_inv {p : SimulationParams} {s : SimulationState}
    (hv : ValidParams p) (h : Reachable p s) : StateInv p s := by
  induction h with
  | init => exact inv_init p
  | start _ ih => exact inv_start ih
  | advance _ hdt ih => exact inv_advance hv ih hdt

/-! ### Helper facts for witnesses -/

lemma validParams_default : ValidParams defaultParams := by
  norm_num [ValidParams, defaultParams]

lemma simState_ext {s t : SimulationState}
    (ht : s.time = t.time) (hr : s.isRunning = t.isRunning) (hp : s.phase = t.phase)
    (h1 : s.doorA.angle = t.doorA.angle)
    (h2 : s.doorA.angularVelocity = t.doorA.angularVelocity)
    (h3 : s.doorA.momentOfInertia = t.doorA.momentOfInertia)
    (h4 : s.doorA.angularMomentum = t.doorA.angularMomentum)
    (h5 : s.doorA.massRadius = t.doorA.massRadius)
    (h6 : s.doorB.angle = t.doorB.angle)
    (h7 : s.doorB.angularVelocity = t.doorB.angularVelocity)
    (h8 : s.doorB.momentOfInertia = t.doorB.momentOfInertia)
    (h9 : s.doorB.angularMomentum = t.doorB.angularMomentum) : s = t := by
  obtain ⟨st, sr, sp, ⟨a1, a2, a3, a4, a5⟩, ⟨b1, b2, b3, b4⟩⟩ := s
  obtain ⟨tt, tr, tp, ⟨c1, c2, c3, c4, c5⟩, ⟨d1, d2, d3, d4⟩⟩ := t
  simp_all

/-! ### Claim C1 -/

/-- C1: a single `updateState` call never changes either door's
`angularMomentum`, and consequently every state reachable from
`initializeState params` carries exactly the momenta computed at
initialization. -/
theorem claim_C1_momentum_never_mutated :
    (∀ (s : SimulationState) (p : SimulationParams) (dt : ℝ),
      (updateState s p dt).doorA.angularMomentum = s.doorA.angularMomentum ∧
      (updateState s p dt).doorB.angularMomentum = s.doorB.angularMomentum) ∧
    ∀ (p : SimulationParams) (s : SimulationState), Reachable p s →
      s.doorA.angularMomentum = (initializeState p).doorA.angularMomentum ∧
      s.doorB.angularMomentum = (initializeState p).doorB.angularMomentum := by
  constructor
  · intro s p dt
    exact ⟨updateState_momentumA s p dt, updateState_momentumB s p dt⟩
  · intro p s h
    induction h with
    | init => exact ⟨rfl, rfl⟩
    | start _ ih => exact ih
    | advance _ _ ih =>
      rw [updateState_momentumA, updateState_momentumB]
      exact ih

theorem claim_C1_witness :
    (updateState (startState (initializeState defaultParams)) defaultParams
        1).doorA.angularMomentum = (initializeState defaultParams).doorA.angularMomentum ∧
    (updateState (startState (initializeState defaultParams)) defaultParams
        1).doorB.angularMomentum = (initializeState defaultParams).doorB.angularMomentum :=
  claim_C1_momentum_never_mutated.2 defaultParams _
    (Reachable.advance (Reachable.start Reachable.init) zero_le_one)

/-! ### Claim C2 -/

/-- C2: from any reachable state, an `updateState` call with
non-negative `deltaTime` leaves both door angles non-decreasing and
at most `MAX_DOOR_ANGLE`, and leaves `massRadius` non-decreasing. -/
theorem claim_C2_monotonic (p : SimulationParams) (s : SimulationState) (dt : ℝ)
    (hv : ValidParams p) (hr : Reachable p s) (hdt : 0 ≤ dt) :
    s.doorA.angle ≤ (updateState s p dt).doorA.angle ∧
    (updateState s p dt).doorA.angle ≤ MAX_DOOR_ANGLE ∧
    s.doorB.angle ≤ (updateState s p dt).doorB.angle ∧
    (updateState s p dt).doorB.angle ≤ MAX_DOOR_ANGLE ∧
    s.doorA.massRadius ≤ (updateState s p dt).doorA.massRadius := by
  have h := reachable_inv hv hr
  by_cases hrun : s.isRunning = true
  · by_cases hterm : MAX_DOOR_ANGLE ≤ s.doorA.angle ∧ MAX_DOOR_ANGLE ≤ s.doorB.angle
    · rw [updateState_terminal p dt hrun hterm.1 hterm.2]
      exact ⟨le_refl _, h.angleA_le, le_refl _, h.angleB_le, le_refl _⟩
    · have hL : 0 < s.doorA.angularMomentum := by
        rw [h.momA]
        exact momentumA_pos hv
      rw [updateState_run p dt hrun hterm]
      refine ⟨?_, ?_, ?_, ?_, ?_⟩
      · rw [stepRun_angleA]
        split_ifs with hA
        · exact h.angleA_le
        · refine le_min h.angleA_le ?_
          have hvel : 0 ≤ (stepRun s p dt).doorA.angularVelocity := by
            rw [stepRun_velA, if_neg hA]
            unfold calculateAngularVelocity
            exact le_of_lt (div_pos hL (totalInertia_pos hv _))
          exact le_add_of_nonneg_right (mul_nonneg hvel hdt)
      · rw [stepRun_angleA]
        split_ifs with hA
        · exact le_refl _
        · exact min_le_left _ _
      · rw [stepRun_angleB]
        split_ifs with hB
        · exact h.angleB_le
        · refine le_min h.angleB_le ?_
          rw [h.velB_run (not_le.mp hB)]
          exact le_add_of_nonneg_right (mul_nonneg (le_of_lt hv.2.2.2.2.2.2) hdt)
      · rw [stepRun_angleB]
        split_ifs with hB
        · exact le_refl _
        · exact min_le_left _ _
      · rw [stepRun_massRadius, h.radius_eq]
        exact radiusAt_mono hv.2.2.2.2.2.1 (le_of_lt hv.2.2.2.2.1)
          h.time_nonneg (le_add_of_nonneg_right hdt)
  · have hf : s.isRunning = false := by
      revert hrun
      cases s.isRunning <;> simp
    rw [updateState_not_running p dt hf]
    exact ⟨le_refl _, h.angleA_le, le_refl _, h.angleB_le, le_refl _⟩

theorem claim_C2_witness :
    (initializeState defaultParams).doorA.angle ≤
      (updateState (initializeState defaultParams) defaultParams 1).doorA.angle ∧
    (updateState (initializeState defaultParams) defaultParams 1).doorA.angle ≤
      MAX_DOOR_ANGLE ∧
    (initializeState defaultParams).doorB.angle ≤
      (updateState (initializeState defaultParams) defaultParams 1).doorB.angle ∧
    (updateState (initializeState defaultParams) defaultParams 1).doorB.angle ≤
      MAX_DOOR_ANGLE ∧
    (initializeState defaultParams).doorA.massRadius ≤
      (updateState (initializeState defaultParams) defaultParams 1).doorA.massRadius :=
  claim_C2_monotonic defaultParams (initializeState defaultParams) 1
    validParams_default Reachable.init zero_le_one

/-! ### Claim C3 -/

/-- C3 (counterexample): `interpolateRadius` does NOT clamp `progress`
to `[0,1]` before applying the easing; it differs from the
pre-clamping formula the claim describes at `progress = -1`. -/
theorem claim_C3_counterexample :
    interpolateRadius 0 1 (-1) ≠ interpolateRadiusPreClamped 0 1 (-1) := by
  norm_num [interpolateRadius, interpolateRadiusPreClamped, min_def, max_def]

/-- C3 (amended): `interpolateRadius r1 r2 progress` applies the
easing to the raw `progress` and clamps only the eased value to
`[0,1]`; for `progress` already inside `[0,1]` this agrees with the
pre-clamping formula of the claim. -/
theorem claim_C3_amended (r1 r2 progress : ℝ) :
    interpolateRadius r1 r2 progress =
      r1 + (r2 - r1) * min 1 (max 0 (easeInOut progress)) ∧
    (0 ≤ progress → progress ≤ 1 →
      interpolateRadius r1 r2 progress = interpolateRadiusPreClamped r1 r2 progress) := by
  refine ⟨interpolateRadius_eq_ease r1 r2 progress, ?_⟩
  intro h0 h1
  simp only [interpolateRadius, interpolateRadiusPreClamped,
    max_eq_right h0, min_eq_right h1]

theorem claim_C3_witness :
    interpolateRadius 0 2 (1 / 2) =
      0 + (2 - 0) * min 1 (max 0 (easeInOut (1 / 2))) ∧
    interpolateRadius 0 2 (1 / 2) = interpolateRadiusPreClamped 0 2 (1 / 2) :=
  ⟨(claim_C3_amended 0 2 (1 / 2)).1,
   (claim_C3_amended 0 2 (1 / 2)).2 (by norm_num) (by norm_num)⟩

/-! ### Claim C5 -/

/-- C5: on a running state with both angles at or past
`MAX_DOOR_ANGLE`, `updateState` returns the terminal snapshot:
`isRunning = false`, `phase = phase2`, both angular velocities zeroed,
and every other field — including `time` — unchanged. -/
theorem claim_C5_terminal_guard (s : SimulationState) (p : SimulationParams) (dt : ℝ)
    (hrun : s.isRunning = true) (hA : MAX_DOOR_ANGLE ≤ s.doorA.angle)
    (hB : MAX_DOOR_ANGLE ≤ s.doorB.angle) :
    (updateState s p dt).isRunning = false ∧
    (updateState s p dt).phase = Phase.phase2 ∧
    (updateState s p dt).doorA.angularVelocity = 0 ∧
    (updateState s p dt).doorB.angularVelocity = 0 ∧
    (updateState s p dt).time = s.time ∧
    (updateState s p dt).doorA.angle = s.doorA.angle ∧
    (updateState s p dt).doorB.angle = s.doorB.angle ∧
    (updateState s p dt).doorA.momentOfInertia = s.doorA.momentOfInertia ∧
    (updateState s p dt).doorB.momentOfInertia = s.doorB.momentOfInertia ∧
    (updateState s p dt).doorA.angularMomentum = s.doorA.angularMomentum ∧
    (updateState s p dt).doorB.angularMomentum = s.doorB.angularMomentum ∧
    (updateState s p dt).doorA.massRadius = s.doorA.massRadius := by
  rw [updateState_terminal p dt hrun hA hB]
  exact ⟨rfl, rfl, rfl, rfl, rfl, rfl, rfl, rfl, rfl, rfl, rfl, rfl⟩

theorem claim_C5_witness :
    (updateState termState defaultParams 1).isRunning = false ∧
    (updateState termState defaultParams 1).phase = Phase.phase2 ∧
    (updateState termState defaultParams 1).doorA.angularVelocity = 0 ∧
    (updateState termState defaultParams 1).doorB.angularVelocity = 0 ∧
    (updateState termState defaultParams 1).time = termState.time ∧
    (updateState termState defaultParams 1).doorA.angle = termState.doorA.angle ∧
    (updateState termState defaultParams 1).doorB.angle = termState.doorB.angle ∧
    (updateState termState defaultParams 1).doorA.momentOfInertia =
      termState.doorA.momentOfInertia ∧
    (updateState termState defaultParams 1).doorB.momentOfInertia =
      termState.doorB.momentOfInertia ∧
    (updateState termState defaultParams 1).doorA.angularMomentum =
      termState.doorA.angularMomentum ∧
    (updateState termState defaultParams 1).doorB.angularMomentum =
      termState.doorB.angularMomentum ∧
    (updateState termState defaultParams 1).doorA.massRadius =
      termState.doorA.massRadius :=
  claim_C5_terminal_guard termState defaultParams 1 rfl
    (maxDoorAngle_le (by norm_num [termState]))
    (maxDoorAngle_le (by norm_num [termState]))

/-! ### Claim C6 -/

/-- C6: in any reachable state, door B's angular velocity equals
`initialAngularVelocity` as long as its angle is below
`MAX_DOOR_ANGLE`; once the angle has reached `MAX_DOOR_ANGLE`, every
further `updateState` call returns angular velocity exactly `0`. -/
theorem claim_C6_doorB_velocity (p : SimulationParams) (s : SimulationState)
    (hv : ValidParams p) (hr : Reachable p s) :
    (s.doorB.angle < MAX_DOOR_ANGLE →
      s.doorB.angularVelocity = p.initialAngularVelocity) ∧
    (MAX_DOOR_ANGLE ≤ s.doorB.angle →
      ∀ dt : ℝ, (updateState s p dt).doorB.angularVelocity = 0) := by
  have h := reachable_inv hv hr
  refine ⟨h.velB_run, ?_⟩
  intro hge dt
  by_cases hrun : s.isRunning = true
  · by_cases hA : MAX_DOOR_ANGLE ≤ s.doorA.angle
    · rw [updateState_terminal p dt hrun hA hge]
    · rw [updateState_run p dt hrun (fun hc => hA hc.1), stepRun_velB, if_pos hge]
  · have hf : s.isRunning = false := by
      revert hrun
      cases s.isRunning <;> simp
    rw [updateState_not_running p dt hf]
    exact h.velB_stop hf hge

theorem claim_C6_witness :
    (initializeState defaultParams).doorB.angularVelocity =
      defaultParams.initialAngularVelocity :=
  (claim_C6_doorB_velocity defaultParams (initializeState defaultParams)
    validParams_default Reachable.init).1 (by
      show (0 : ℝ) < MAX_DOOR_ANGLE
      exact maxDoorAngle_pos)

/-! ### Claim C7 -/

/-- C7: the initializer sets `doorA.angularMomentum` to exactly
`doorA.momentOfInertia * initialAngularVelocity`, where the stored
inertia is the total `(1/3)·doorMass·doorWidth² +
slidingMass·initialRadius²`. -/
theorem claim_C7_init_momentum (p : SimulationParams) :
    (initializeState p).doorA.angularMomentum =
      (initializeState p).doorA.momentOfInertia * p.initialAngularVelocity ∧
    (initializeState p).doorA.momentOfInertia =
      (1 / 3) * p.doorMass * p.doorWidth ^ 2 + p.slidingMass * p.initialRadius ^ 2 := by
  constructor
  · rfl
  · show calculateTotalMomentOfInertia
      (calculateDoorMomentOfInertia p.doorMass p.doorWidth)
      p.slidingMass p.initialRadius = _
    unfold calculateTotalMomentOfInertia calculateDoorMomentOfInertia
    ring

/-! ### Claim C4 -/

/-- C4: when an `updateState` call on a running state (with at least
one door still below the limit) brings both angles to
`MAX_DOOR_ANGLE`, the returned state has `phase = phase2` but is
still running; only the following call turns `isRunning` off. -/
theorem claim_C4_one_tick_lag (s : SimulationState) (p : SimulationParams) (dt dt' : ℝ)
    (hrun : s.isRunning = true)
    (hbelow : s.doorA.angle < MAX_DOOR_ANGLE ∨ s.doorB.angle < MAX_DOOR_ANGLE)
    (hA : MAX_DOOR_ANGLE ≤ (updateState s p dt).doorA.angle)
    (hB : MAX_DOOR_ANGLE ≤ (updateState s p dt).doorB.angle) :
    (updateState s p dt).phase = Phase.phase2 ∧
    (updateState s p dt).isRunning = true ∧
    (updateState (updateState s p dt) p dt').isRunning = false := by
  have hnt : ¬(MAX_DOOR_ANGLE ≤ s.doorA.angle ∧ MAX_DOOR_ANGLE ≤ s.doorB.angle) := by
    rcases hbelow with h | h
    · exact fun hc => absurd hc.1 (not_le.mpr h)
    · exact fun hc => absurd hc.2 (not_le.mpr h)
  have hrun' : (updateState s p dt).isRunning = true := by
    rw [updateState_run p dt hrun hnt, stepRun_isRunning]
    exact hrun
  refine ⟨?_, hrun', ?_⟩
  · rw [updateState_run p dt hrun hnt] at hA hB ⊢
    rw [stepRun_phase, if_pos ⟨hA, hB⟩]
  · rw [updateState_terminal p dt' hrun' hA hB]

lemma nearTermState_next_angleA :
    MAX_DOOR_ANGLE ≤ (updateState nearTermState defaultParams 0.1).doorA.angle := by
  have hA : ¬ MAX_DOOR_ANGLE ≤ nearTermState.doorA.angle :=
    not_le.mpr (lt_maxDoorAngle (by norm_num [nearTermState]))
  rw [updateState_run _ _ rfl (fun hc => hA hc.1)]
  have hrad : radiusAt defaultParams (nearTermState.time + 0.1) = 9 / 10 := by
    norm_num [radiusAt, interpolateRadius, defaultParams, nearTermState, min_def, max_def]
  rw [stepRun_angleA, if_neg hA, stepRun_velA, if_neg hA, hrad]
  have hvel : calculateAngularVelocity nearTermState.doorA.angularMomentum
      (calculateTotalMomentOfInertia
        (calculateDoorMomentOfInertia defaultParams.doorMass defaultParams.doorWidth)
        defaultParams.slidingMass (9 / 10)) = 126 / 103 := by
    norm_num [calculateAngularVelocity, calculateTotalMomentOfInertia,
      calculateDoorMomentOfInertia, defaultParams, nearTermState]
  rw [hvel, min_eq_left (maxDoorAngle_le (by norm_num [nearTermState]))]

lemma nearTermState_next_angleB :
    MAX_DOOR_ANGLE ≤ (updateState nearTermState defaultParams 0.1).doorB.angle := by
  have hA : ¬ MAX_DOOR_ANGLE ≤ nearTermState.doorA.angle :=
    not_le.mpr (lt_maxDoorAngle (by norm_num [nearTermState]))
  have hB : ¬ MAX_DOOR_ANGLE ≤ nearTermState.doorB.angle :=
    not_le.mpr (lt_maxDoorAngle (by norm_num [nearTermState]))
  rw [updateState_run _ _ rfl (fun hc => hA hc.1)]
  rw [stepRun_angleB, if_neg hB,
    min_eq_left (maxDoorAngle_le (by norm_num [nearTermState]))]

theorem claim_C4_witness :
    (updateState nearTermState defaultParams 0.1).phase = Phase.phase2 ∧
    (updateState nearTermState defaultParams 0.1).isRunning = true ∧
    (updateState (updateState nearTermState defaultParams 0.1) defaultParams
      1).isRunning = false :=
  claim_C4_one_tick_lag nearTermState defaultParams 0.1 1 rfl
    (Or.inl (lt_maxDoorAngle (by norm_num [nearTermState])))
    nearTermState_next_angleA nearTermState_next_angleB

/-! ### Claim C9 -/

/-- C9: in every reachable state whose door A is still below the
closing limit, the stored fields satisfy
`angularVelocity * momentOfInertia = angularMomentum` exactly. -/
theorem claim_C9_velocity_consistent (p : SimulationParams) (s : SimulationState)
    (hv : ValidParams p) (hr : Reachable p s)
    (hA : s.doorA.angle < MAX_DOOR_ANGLE) :
    s.doorA.angularVelocity * s.doorA.momentOfInertia = s.doorA.angularMomentum :=
  (reachable_inv hv hr).consistentA hA

theorem claim_C9_witness :
    (initializeState defaultParams).doorA.angularVelocity *
        (initializeState defaultParams).doorA.momentOfInertia =
      (initializeState defaultParams).doorA.angularMomentum :=
  claim_C9_velocity_consistent defaultParams (initializeState defaultParams)
    validParams_default Reachable.init (by
      show (0 : ℝ) < MAX_DOOR_ANGLE
      exact maxDoorAngle_pos)

/-! ### Claim C10 -/

/-- C10: a running state with door A at the limit but door B below it
still recomputes `massRadius` and door A's inertia from the new time,
forces door A's angular velocity to `0`, and therefore
`momentOfInertia * angularVelocity` is `0`, differing from the stored
nonzero `angularMomentum`. -/
theorem claim_C10_doorA_stopped (s : SimulationState) (p : SimulationParams) (dt : ℝ)
    (hrun : s.isRunning = true) (hA : MAX_DOOR_ANGLE ≤ s.doorA.angle)
    (hB : s.doorB.angle < MAX_DOOR_ANGLE) (hL : s.doorA.angularMomentum ≠ 0) :
    (updateState s p dt).doorA.massRadius = radiusAt p (s.time + dt) ∧
    (updateState s p dt).doorA.momentOfInertia =
      calculateTotalMomentOfInertia
        (calculateDoorMomentOfInertia p.doorMass p.doorWidth)
        p.slidingMass (radiusAt p (s.time + dt)) ∧
    (updateState s p dt).doorA.angularVelocity = 0 ∧
    (updateState s p dt).doorA.momentOfInertia *
      (updateState s p dt).doorA.angularVelocity = 0 ∧
    (updateState s p dt).doorA.momentOfInertia *
        (updateState s p dt).doorA.angularVelocity ≠
      (updateState s p dt).doorA.angularMomentum := by
  have hnt : ¬(MAX_DOOR_ANGLE ≤ s.doorA.angle ∧ MAX_DOOR_ANGLE ≤ s.doorB.angle) :=
    fun hc => absurd hc.2 (not_le.mpr hB)
  rw [updateState_run p dt hrun hnt, stepRun_massRadius, stepRun_inertiaA,
    stepRun_velA, stepRun_momA, if_pos hA]
  refine ⟨rfl, rfl, rfl, mul_zero _, ?_⟩
  rw [mul_zero]
  exact fun h => hL h.symm

theorem claim_C10_witness :
    (updateState stoppedAState defaultParams 1).doorA.massRadius =
      radiusAt defaultParams (stoppedAState.time + 1) ∧
    (updateState stoppedAState defaultParams 1).doorA.momentOfInertia =
      calculateTotalMomentOfInertia
        (calculateDoorMomentOfInertia defaultParams.doorMass defaultParams.doorWidth)
        defaultParams.slidingMass (radiusAt defaultParams (stoppedAState.time + 1)) ∧
    (updateState stoppedAState defaultParams 1).doorA.angularVelocity = 0 ∧
    (updateState stoppedAState defaultParams 1).doorA.momentOfInertia *
      (updateState stoppedAState defaultParams 1).doorA.angularVelocity = 0 ∧
    (updateState stoppedAState defaultParams 1).doorA.momentOfInertia *
        (updateState stoppedAState defaultParams 1).doorA.angularVelocity ≠
      (updateState stoppedAState defaultParams 1).doorA.angularMomentum :=
  claim_C10_doorA_stopped stoppedAState defaultParams 1 rfl
    (maxDoorAngle_le (by norm_num [stoppedAState]))
    (lt_maxDoorAngle (by norm_num [stoppedAState]))
    (by norm_num [stoppedAState])

lemma iterAdvance_zero (p : SimulationParams) (dt : ℝ) (s : SimulationState) :
    iterAdvance p dt 0 s = s := rfl

lemma iterAdvance_succ (p : SimulationParams) (dt : ℝ) (n : ℕ) (s : SimulationState) :
    iterAdvance p dt (n + 1) s = iterAdvance p dt n (updateState s p dt) := rfl

lemma trajStep1 : updateState traj0 defaultParams 0.1 = traj1 := by
  have hA : ¬ MAX_DOOR_ANGLE ≤ traj0.doorA.angle :=
    not_le.mpr (lt_maxDoorAngle (by norm_num [traj0]))
  have hB : ¬ MAX_DOOR_ANGLE ≤ traj0.doorB.angle :=
    not_le.mpr (lt_maxDoorAngle (by norm_num [traj0]))
  rw [updateState_run _ _ rfl (fun hc => hA hc.1)]
  have hrad : radiusAt defaultParams (traj0.time + 0.1) = 1/9 := by
    norm_num [radiusAt, interpolateRadius, defaultParams, traj0, min_def, max_def]
  have hvel : (stepRun traj0 defaultParams 0.1).doorA.angularVelocity = 20412/10225 := by
    rw [stepRun_velA, if_neg hA, hrad]
    norm_num [calculateAngularVelocity, calculateTotalMomentOfInertia,
      calculateDoorMomentOfInertia, defaultParams, traj0]
  have hangA : (stepRun traj0 defaultParams 0.1).doorA.angle = 10206/51125 := by
    rw [stepRun_angleA, if_neg hA, hvel]
    rw [min_eq_right (le_of_lt (lt_maxDoorAngle (by norm_num [traj0])))]
    norm_num [traj0]
  have hangB : (stepRun traj0 defaultParams 0.1).doorB.angle = 1/5 := by
    rw [stepRun_angleB, if_neg hB]
    rw [min_eq_right (le_of_lt (lt_maxDoorAngle (by norm_num [traj0])))]
    norm_num [traj0]
  have hvelB : (stepRun traj0 defaultParams 0.1).doorB.angularVelocity = 2 := by
    rw [stepRun_velB, if_neg hB]
    norm_num [traj0]
  have htime : (stepRun traj0 defaultParams 0.1).time = 1/10 := by
    rw [stepRun_time]
    norm_num [traj0]
  have hphase : (stepRun traj0 defaultParams 0.1).phase = Phase.phase1 := by
    rw [stepRun_phase, hangA, hangB]
    rw [if_neg (fun hc => absurd hc.1 (not_le.mpr (lt_maxDoorAngle (by norm_num))))]
  have hIA : (stepRun traj0 defaultParams 0.1).doorA.momentOfInertia = 818/81 := by
    rw [stepRun_inertiaA, hrad]
    norm_num [calculateTotalMomentOfInertia, calculateDoorMomentOfInertia, defaultParams]
  have hmr : (stepRun traj0 defaultParams 0.1).doorA.massRadius = 1/9 := by
    rw [stepRun_massRadius, hrad]
  exact simState_ext htime (stepRun_isRunning traj0 defaultParams 0.1) hphase hangA hvel
    hIA (stepRun_momA traj0 defaultParams 0.1) hmr hangB hvelB
    (stepRun_inertiaB traj0 defaultParams 0.1) (stepRun_momB traj0 defaultParams 0.1)

lemma trajStep2 : updateState traj1 defaultParams 0.1 = traj2 := by
  have hA : ¬ MAX_DOOR_ANGLE ≤ traj1.doorA.angle :=
    not_le.mpr (lt_maxDoorAngle (by norm_num [traj1]))
  have hB : ¬ MAX_DOOR_ANGLE ≤ traj1.doorB.angle :=
    not_le.mpr (lt_maxDoorAngle (by norm_num [traj1]))
  rw [updateState_run _ _ rfl (fun hc => hA hc.1)]
  have hrad : radiusAt defaultParams (traj1.time + 0.1) = 13/90 := by
    norm_num [radiusAt, interpolateRadius, defaultParams, traj1, min_def, max_def]
  have hvel : (stepRun traj1 defaultParams 0.1).doorA.angularVelocity = 10206/5147 := by
    rw [stepRun_velA, if_neg hA, hrad]
    norm_num [calculateAngularVelocity, calculateTotalMomentOfInertia,
      calculateDoorMomentOfInertia, defaultParams, traj1]
  have hangA : (stepRun traj1 defaultParams 0.1).doorA.angle = 104708457/263140375 := by
    rw [stepRun_angleA, if_neg hA, hvel]
    rw [min_eq_right (le_of_lt (lt_maxDoorAngle (by norm_num [traj1])))]
    norm_num [traj1]
  have hangB : (stepRun traj1 defaultParams 0.1).doorB.angle = 2/5 := by
    rw [stepRun_angleB, if_neg hB]
    rw [min_eq_right (le_of_lt (lt_maxDoorAngle (by norm_num [traj1])))]
    norm_num [traj1]
  have hvelB : (stepRun traj1 defaultParams 0.1).doorB.angularVelocity = 2 := by
    rw [stepRun_velB, if_neg hB]
    norm_num [traj1]
  have htime : (stepRun traj1 defaultParams 0.1).time = 1/5 := by
    rw [stepRun_time]
    norm_num [traj1]
  have hphase : (stepRun traj1 defaultParams 0.1).phase = Phase.phase1 := by
    rw [stepRun_phase, hangA, hangB]
    rw [if_neg (fun hc => absurd hc.1 (not_le.mpr (lt_maxDoorAngle (by norm_num))))]
  have hIA : (stepRun traj1 defaultParams 0.1).doorA.momentOfInertia = 20588/2025 := by
    rw [stepRun_inertiaA, hrad]
    norm_num [calculateTotalMomentOfInertia, calculateDoorMomentOfInertia, defaultParams]
  have hmr : (stepRun traj1 defaultParams 0.1).doorA.massRadius = 13/90 := by
    rw [stepRun_massRadius, hrad]
  exact simState_ext htime (stepRun_isRunning traj1 defaultParams 0.1) hphase hangA hvel
    hIA (stepRun_momA traj1 defaultParams 0.1) hmr hangB hvelB
    (stepRun_inertiaB traj1 defaultParams 0.1) (stepRun_momB traj1 defaultParams 0.1)

lemma trajStep3 : updateState traj2 defaultParams 0.1 = traj3 := by
  have hA : ¬ MAX_DOOR_ANGLE ≤ traj2.doorA.angle :=
    not_le.mpr (lt_maxDoorAngle (by norm_num [traj2]))
  have hB : ¬ MAX_DOOR_ANGLE ≤ traj2.doorB.angle :=
    not_le.mpr (lt_maxDoorAngle (by norm_num [traj2]))
  rw [updateState_run _ _ rfl (fun hc => hA hc.1)]
  have hrad : radiusAt defaultParams (traj2.time + 0.1) = 1/5 := by
    norm_num [radiusAt, interpolateRadius, defaultParams, traj2, min_def, max_def]
  have hvel : (stepRun traj2 defaultParams 0.1).doorA.angularVelocity = 84/43 := by
    rw [stepRun_velA, if_neg hA, hrad]
    norm_num [calculateAngularVelocity, calculateTotalMomentOfInertia,
      calculateDoorMomentOfInertia, defaultParams, traj2]
  have hangA : (stepRun traj2 defaultParams 0.1).doorA.angle = 6712842801/11315036125 := by
    rw [stepRun_angleA, if_neg hA, hvel]
    rw [min_eq_right (le_of_lt (lt_maxDoorAngle (by norm_num [traj2])))]
    norm_num [traj2]
  have hangB : (stepRun traj2 defaultParams 0.1).doorB.angle = 3/5 := by
    rw [stepRun_angleB, if_neg hB]
    rw [min_eq_right (le_of_lt (lt_maxDoorAngle (by norm_num [traj2])))]
    norm_num [traj2]
  have hvelB : (stepRun traj2 defaultParams 0.1).doorB.angularVelocity = 2 := by
    rw [stepRun_velB, if_neg hB]
    norm_num [traj2]
  have htime : (stepRun traj2 defaultParams 0.1).time = 3/10 := by
    rw [stepRun_time]
    norm_num [traj2]
  have hphase : (stepRun traj2 defaultParams 0.1).phase = Phase.phase1 := by
    rw [stepRun_phase, hangA, hangB]
    rw [if_neg (fun hc => absurd hc.1 (not_le.mpr (lt_maxDoorAngle (by norm_num))))]
  have hIA : (stepRun traj2 defaultParams 0.1).doorA.momentOfInertia = 258/25 := by
    rw [stepRun_inertiaA, hrad]
    norm_num [calculateTotalMomentOfInertia, calculateDoorMomentOfInertia, defaultParams]
  have hmr : (stepRun traj2 defaultParams 0.1).doorA.massRadius = 1/5 := by
    rw [stepRun_massRadius, hrad]
  exact simState_ext htime (stepRun_isRunning traj2 defaultParams 0.1) hphase hangA hvel
    hIA (stepRun_momA traj2 defaultParams 0.1) hmr hangB hvelB
    (stepRun_inertiaB traj2 defaultParams 0.1) (stepRun_momB traj2 defaultParams 0.1)

lemma trajStep4 : updateState traj3 defaultParams 0.1 = traj4 := by
  have hA : ¬ MAX_DOOR_ANGLE ≤ traj3.doorA.angle :=
    not_le.mpr (lt_maxDoorAngle (by norm_num [traj3]))
  have hB : ¬ MAX_DOOR_ANGLE ≤ traj3.doorB.angle :=
    not_le.mpr (lt_maxDoorAngle (by norm_num [traj3]))
  rw [updateState_run _ _ rfl (fun hc => hA hc.1)]
  have hrad : radiusAt defaultParams (traj3.time + 0.1) = 5/18 := by
    norm_num [radiusAt, interpolateRadius, defaultParams, traj3, min_def, max_def]
  have hvel : (stepRun traj3 defaultParams 0.1).doorA.angularVelocity = 10206/5375 := by
    rw [stepRun_velA, if_neg hA, hrad]
    norm_num [calculateAngularVelocity, calculateTotalMomentOfInertia,
      calculateDoorMomentOfInertia, defaultParams, traj3]
  have hangA : (stepRun traj3 defaultParams 0.1).doorA.angle = 44306656674/56575180625 := by
    rw [stepRun_angleA, if_neg hA, hvel]
    rw [min_eq_right (le_of_lt (lt_maxDoorAngle (by norm_num [traj3])))]
    norm_num [traj3]
  have hangB : (stepRun traj3 defaultParams 0.1).doorB.angle = 4/5 := by
    rw [stepRun_angleB, if_neg hB]
    rw [min_eq_right (le_of_lt (lt_maxDoorAngle (by norm_num [traj3])))]
    norm_num [traj3]
  have hvelB : (stepRun traj3 defaultParams 0.1).doorB.angularVelocity = 2 := by
    rw [stepRun_velB, if_neg hB]
    norm_num [traj3]
  have htime : (stepRun traj3 defaultParams 0.1).time = 2/5 := by
    rw [stepRun_time]
    norm_num [traj3]
  have hphase : (stepRun traj3 defaultParams 0.1).phase = Phase.phase1 := by
    rw [stepRun_phase, hangA, hangB]
    rw [if_neg (fun hc => absurd hc.1 (not_le.mpr (lt_maxDoorAngle (by norm_num))))]
  have hIA : (stepRun traj3 defaultParams 0.1).doorA.momentOfInertia = 860/81 := by
    rw [stepRun_inertiaA, hrad]
    norm_num [calculateTotalMomentOfInertia, calculateDoorMomentOfInertia, defaultParams]
  have hmr : (stepRun traj3 defaultParams 0.1).doorA.massRadius = 5/18 := by
    rw [stepRun_massRadius, hrad]
  exact simState_ext htime (stepRun_isRunning traj3 defaultParams 0.1) hphase hangA hvel
    hIA (stepRun_momA traj3 defaultParams 0.1) hmr hangB hvelB
    (stepRun_inertiaB traj3 defaultParams 0.1) (stepRun_momB traj3 defaultParams 0.1)

lemma trajStep5 : updateState traj4 defaultParams 0.1 = traj5 := by
  have hA : ¬ MAX_DOOR_ANGLE ≤ traj4.doorA.angle :=
    not_le.mpr (lt_maxDoorAngle (by norm_num [traj4]))
  have hB : ¬ MAX_DOOR_ANGLE ≤ traj4.doorB.angle :=
    not_le.mpr (lt_maxDoorAngle (by norm_num [traj4]))
  rw [updateState_run _ _ rfl (fun hc => hA hc.1)]
  have hrad : radiusAt defaultParams (traj4.time + 0.1) = 17/45 := by
    norm_num [radiusAt, interpolateRadius, defaultParams, traj4, min_def, max_def]
  have hvel : (stepRun traj4 defaultParams 0.1).doorA.angularVelocity = 20412/11281 := by
    rw [stepRun_velA, if_neg hA, hrad]
    norm_num [calculateAngularVelocity, calculateTotalMomentOfInertia,
      calculateDoorMomentOfInertia, defaultParams, traj4]
  have hangA : (stepRun traj4 defaultParams 0.1).doorA.angle = 615304652631144/638224612630625 := by
    rw [stepRun_angleA, if_neg hA, hvel]
    rw [min_eq_right (le_of_lt (lt_maxDoorAngle (by norm_num [traj4])))]
    norm_num [traj4]
  have hangB : (stepRun traj4 defaultParams 0.1).doorB.angle = 1 := by
    rw [stepRun_angleB, if_neg hB]
    rw [min_eq_right (le_of_lt (lt_maxDoorAngle (by norm_num [traj4])))]
    norm_num [traj4]
  have hvelB : (stepRun traj4 defaultParams 0.1).doorB.angularVelocity = 2 := by
    rw [stepRun_velB, if_neg hB]
    norm_num [traj4]
  have htime : (stepRun traj4 defaultParams 0.1).time = 1/2 := by
    rw [stepRun_time]
    norm_num [traj4]
  have hphase : (stepRun traj4 defaultParams 0.1).phase = Phase.phase1 := by
    rw [stepRun_phase, hangA, hangB]
    rw [if_neg (fun hc => absurd hc.1 (not_le.mpr (lt_maxDoorAngle (by norm_num))))]
  have hIA : (stepRun traj4 defaultParams 0.1).doorA.momentOfInertia = 22562/2025 := by
    rw [stepRun_inertiaA, hrad]
    norm_num [calculateTotalMomentOfInertia, calculateDoorMomentOfInertia, defaultParams]
  have hmr : (stepRun traj4 defaultParams 0.1).doorA.massRadius = 17/45 := by
    rw [stepRun_massRadius, hrad]
  exact simState_ext htime (stepRun_isRunning traj4 defaultParams 0.1) hphase hangA hvel
    hIA (stepRun_momA traj4 defaultParams 0.1) hmr hangB hvelB
    (stepRun_inertiaB traj4 defaultParams 0.1) (stepRun_momB traj4 defaultParams 0.1)

lemma trajStep6 : updateState traj5 defaultParams 0.1 = traj6 := by
  have hA : ¬ MAX_DOOR_ANGLE ≤ traj5.doorA.angle :=
    not_le.mpr (lt_maxDoorAngle (by norm_num [traj5]))
  have hB : ¬ MAX_DOOR_ANGLE ≤ traj5.doorB.angle :=
    not_le.mpr (lt_maxDoorAngle (by norm_num [traj5]))
  rw [updateState_run _ _ rfl (fun hc => hA hc.1)]
  have hrad : radiusAt defaultParams (traj5.time + 0.1) = 1/2 := by
    norm_num [radiusAt, interpolateRadius, defaultParams, traj5, min_def, max_def]
  have hvel : (stepRun traj5 defaultParams 0.1).doorA.angularVelocity = 42/25 := by
    rw [stepRun_velA, if_neg hA, hrad]
    norm_num [calculateAngularVelocity, calculateTotalMomentOfInertia,
      calculateDoorMomentOfInertia, defaultParams, traj5]
  have hangA : (stepRun traj5 defaultParams 0.1).doorA.angle = 722526387553089/638224612630625 := by
    rw [stepRun_angleA, if_neg hA, hvel]
    rw [min_eq_right (le_of_lt (lt_maxDoorAngle (by norm_num [traj5])))]
    norm_num [traj5]
  have hangB : (stepRun traj5 defaultParams 0.1).doorB.angle = 6/5 := by
    rw [stepRun_angleB, if_neg hB]
    rw [min_eq_right (le_of_lt (lt_maxDoorAngle (by norm_num [traj5])))]
    norm_num [traj5]
  have hvelB : (stepRun traj5 defaultParams 0.1).doorB.angularVelocity = 2 := by
    rw [stepRun_velB, if_neg hB]
    norm_num [traj5]
  have htime : (stepRun traj5 defaultParams 0.1).time = 3/5 := by
    rw [stepRun_time]
    norm_num [traj5]
  have hphase : (stepRun traj5 defaultParams 0.1).phase = Phase.phase1 := by
    rw [stepRun_phase, hangA, hangB]
    rw [if_neg (fun hc => absurd hc.1 (not_le.mpr (lt_maxDoorAngle (by norm_num))))]
  have hIA : (stepRun traj5 defaultParams 0.1).doorA.momentOfInertia = 12 := by
    rw [stepRun_inertiaA, hrad]
    norm_num [calculateTotalMomentOfInertia, calculateDoorMomentOfInertia, defaultParams]
  have hmr : (stepRun traj5 defaultParams 0.1).doorA.massRadius = 1/2 := by
    rw [stepRun_massRadius, hrad]
  exact simState_ext htime (stepRun_isRunning traj5 defaultParams 0.1) hphase hangA hvel
    hIA (stepRun_momA traj5 defaultParams 0.1) hmr hangB hvelB
    (stepRun_inertiaB traj5 defaultParams 0.1) (stepRun_momB traj5 defaultParams 0.1)

lemma trajStep7 : updateState traj6 defaultParams 0.1 = traj7 := by
  have hA : ¬ MAX_DOOR_ANGLE ≤ traj6.doorA.angle :=
    not_le.mpr (lt_maxDoorAngle (by norm_num [traj6]))
  have hB : ¬ MAX_DOOR_ANGLE ≤ traj6.doorB.angle :=
    not_le.mpr (lt_maxDoorAngle (by norm_num [traj6]))
  rw [updateState_run _ _ rfl (fun hc => hA hc.1)]
  have hrad : radiusAt defaultParams (traj6.time + 0.1) = 28/45 := by
    norm_num [radiusAt, interpolateRadius, defaultParams, traj6, min_def, max_def]
  have hvel : (stepRun traj6 defaultParams 0.1).doorA.angularVelocity = 20412/13261 := by
    rw [stepRun_velA, if_neg hA, hrad]
    norm_num [calculateAngularVelocity, calculateTotalMomentOfInertia,
      calculateDoorMomentOfInertia, defaultParams, traj6]
  have hangA : (stepRun traj6 defaultParams 0.1).doorA.angle = 10884166504643144979/8463496588094718125 := by
    rw [stepRun_angleA, if_neg hA, hvel]
    rw [min_eq_right (le_of_lt (lt_maxDoorAngle (by norm_num [traj6])))]
    norm_num [traj6]
  have hangB : (stepRun traj6 defaultParams 0.1).doorB.angle = 7/5 := by
    rw [stepRun_angleB, if_neg hB]
    rw [min_eq_right (le_of_lt (lt_maxDoorAngle (by norm_num [traj6])))]
    norm_num [traj6]
  have hvelB : (stepRun traj6 defaultParams 0.1).doorB.angularVelocity = 2 := by
    rw [stepRun_velB, if_neg hB]
    norm_num [traj6]
  have htime : (stepRun traj6 defaultParams 0.1).time = 7/10 := by
    rw [stepRun_time]
    norm_num [traj6]
  have hphase : (stepRun traj6 defaultParams 0.1).phase = Phase.phase1 := by
    rw [stepRun_phase, hangA, hangB]
    rw [if_neg (fun hc => absurd hc.1 (not_le.mpr (lt_maxDoorAngle (by norm_num))))]
  have hIA : (stepRun traj6 defaultParams 0.1).doorA.momentOfInertia = 26522/2025 := by
    rw [stepRun_inertiaA, hrad]
    norm_num [calculateTotalMomentOfInertia, calculateDoorMomentOfInertia, defaultParams]
  have hmr : (stepRun traj6 defaultParams 0.1).doorA.massRadius = 28/45 := by
    rw [stepRun_massRadius, hrad]
  exact simState_ext htime (stepRun_isRunning traj6 defaultParams 0.1) hphase hangA hvel
    hIA (stepRun_momA traj6 defaultParams 0.1) hmr hangB hvelB
    (stepRun_inertiaB traj6 defaultParams 0.1) (stepRun_momB traj6 defaultParams 0.1)

lemma trajStep8 : updateState traj7 defaultParams 0.1 = traj8 := by
  have hA : ¬ MAX_DOOR_ANGLE ≤ traj7.doorA.angle :=
    not_le.mpr (lt_maxDoorAngle (by norm_num [traj7]))
  have hB : ¬ MAX_DOOR_ANGLE ≤ traj7.doorB.angle :=
    not_le.mpr (lt_maxDoorAngle (by norm_num [traj7]))
  rw [updateState_run _ _ rfl (fun hc => hA hc.1)]
  have hrad : radiusAt defaultParams (traj7.time + 0.1) = 13/18 := by
    norm_num [radiusAt, interpolateRadius, defaultParams, traj7, min_def, max_def]
  have hvel : (stepRun traj7 defaultParams 0.1).doorA.angularVelocity = 1458/1025 := by
    rw [stepRun_velA, if_neg hA, hrad]
    norm_num [calculateAngularVelocity, calculateTotalMomentOfInertia,
      calculateDoorMomentOfInertia, defaultParams, traj7]
  have hangA : (stepRun traj7 defaultParams 0.1).doorA.angle = 495609938792137340244/347003360111883443125 := by
    rw [stepRun_angleA, if_neg hA, hvel]
    rw [min_eq_right (le_of_lt (lt_maxDoorAngle (by norm_num [traj7])))]
    norm_num [traj7]
  have hangB : (stepRun traj7 defaultParams 0.1).doorB.angle = MAX_DOOR_ANGLE := by
    rw [stepRun_angleB, if_neg hB]
    rw [min_eq_left (maxDoorAngle_le (by norm_num [traj7]))]
  have hvelB : (stepRun traj7 defaultParams 0.1).doorB.angularVelocity = 2 := by
    rw [stepRun_velB, if_neg hB]
    norm_num [traj7]
  have htime : (stepRun traj7 defaultParams 0.1).time = 4/5 := by
    rw [stepRun_time]
    norm_num [traj7]
  have hphase : (stepRun traj7 defaultParams 0.1).phase = Phase.phase1 := by
    rw [stepRun_phase, hangA, hangB]
    rw [if_neg (fun hc => absurd hc.1 (not_le.mpr (lt_maxDoorAngle (by norm_num))))]
  have hIA : (stepRun traj7 defaultParams 0.1).doorA.momentOfInertia = 1148/81 := by
    rw [stepRun_inertiaA, hrad]
    norm_num [calculateTotalMomentOfInertia, calculateDoorMomentOfInertia, defaultParams]
  have hmr : (stepRun traj7 defaultParams 0.1).doorA.massRadius = 13/18 := by
    rw [stepRun_massRadius, hrad]
  exact simState_ext htime (stepRun_isRunning traj7 defaultParams 0.1) hphase hangA hvel
    hIA (stepRun_momA traj7 defaultParams 0.1) hmr hangB hvelB
    (stepRun_inertiaB traj7 defaultParams 0.1) (stepRun_momB traj7 defaultParams 0.1)

lemma trajStep9 : updateState traj8 defaultParams 0.1 = traj9 := by
  have hA : ¬ MAX_DOOR_ANGLE ≤ traj8.doorA.angle :=
    not_le.mpr (lt_maxDoorAngle (by norm_num [traj8]))
  have hB : MAX_DOOR_ANGLE ≤ traj8.doorB.angle := le_of_eq rfl
  rw [updateState_run _ _ rfl (fun hc => hA hc.1)]
  have hrad : radiusAt defaultParams (traj8.time + 0.1) = 4/5 := by
    norm_num [radiusAt, interpolateRadius, defaultParams, traj8, min_def, max_def]
  have hvel : (stepRun traj8 defaultParams 0.1).doorA.angularVelocity = 4/3 := by
    rw [stepRun_velA, if_neg hA, hrad]
    norm_num [calculateAngularVelocity, calculateTotalMomentOfInertia,
      calculateDoorMomentOfInertia, defaultParams, traj8]
  have hangA : (stepRun traj8 defaultParams 0.1).doorA.angle = 1625631160421165397982/1041010080335650329375 := by
    rw [stepRun_angleA, if_neg hA, hvel]
    rw [min_eq_right (le_of_lt (lt_maxDoorAngle (by norm_num [traj8])))]
    norm_num [traj8]
  have hangB : (stepRun traj8 defaultParams 0.1).doorB.angle = MAX_DOOR_ANGLE := by
    rw [stepRun_angleB, if_pos hB]
  have hvelB : (stepRun traj8 defaultParams 0.1).doorB.angularVelocity = 0 := by
    rw [stepRun_velB, if_pos hB]
  have htime : (stepRun traj8 defaultParams 0.1).time = 9/10 := by
    rw [stepRun_time]
    norm_num [traj8]
  have hphase : (stepRun traj8 defaultParams 0.1).phase = Phase.phase1 := by
    rw [stepRun_phase, hangA, hangB]
    rw [if_neg (fun hc => absurd hc.1 (not_le.mpr (lt_maxDoorAngle (by norm_num))))]
  have hIA : (stepRun traj8 defaultParams 0.1).doorA.momentOfInertia = 378/25 := by
    rw [stepRun_inertiaA, hrad]
    norm_num [calculateTotalMomentOfInertia, calculateDoorMomentOfInertia, defaultParams]
  have hmr : (stepRun traj8 defaultParams 0.1).doorA.massRadius = 4/5 := by
    rw [stepRun_massRadius, hrad]
  exact simState_ext htime (stepRun_isRunning traj8 defaultParams 0.1) hphase hangA hvel
    hIA (stepRun_momA traj8 defaultParams 0.1) hmr hangB hvelB
    (stepRun_inertiaB traj8 defaultParams 0.1) (stepRun_momB traj8 defaultParams 0.1)

lemma trajStep10 : updateState traj9 defaultParams 0.1 = traj10 := by
  have hA : ¬ MAX_DOOR_ANGLE ≤ traj9.doorA.angle :=
    not_le.mpr (lt_maxDoorAngle (by norm_num [traj9]))
  have hB : MAX_DOOR_ANGLE ≤ traj9.doorB.angle := le_of_eq rfl
  rw [updateState_run _ _ rfl (fun hc => hA hc.1)]
  have hrad : radiusAt defaultParams (traj9.time + 0.1) = 77/90 := by
    norm_num [radiusAt, interpolateRadius, defaultParams, traj9, min_def, max_def]
  have hvel : (stepRun traj9 defaultParams 0.1).doorA.angularVelocity = 10206/8027 := by
    rw [stepRun_velA, if_neg hA, hrad]
    norm_num [calculateAngularVelocity, calculateTotalMomentOfInertia,
      calculateDoorMomentOfInertia, defaultParams, traj9]
  have hangA : (stepRun traj9 defaultParams 0.1).doorA.angle = MAX_DOOR_ANGLE := by
    rw [stepRun_angleA, if_neg hA, hvel]
    rw [min_eq_left (maxDoorAngle_le (by norm_num [traj9]))]
  have hangB : (stepRun traj9 defaultParams 0.1).doorB.angle = MAX_DOOR_ANGLE := by
    rw [stepRun_angleB, if_pos hB]
  have hvelB : (stepRun traj9 defaultParams 0.1).doorB.angularVelocity = 0 := by
    rw [stepRun_velB, if_pos hB]
  have htime : (stepRun traj9 defaultParams 0.1).time = 1 := by
    rw [stepRun_time]
    norm_num [traj9]
  have hphase : (stepRun traj9 defaultParams 0.1).phase = Phase.phase2 := by
    rw [stepRun_phase, hangA, hangB]
    rw [if_pos ⟨le_refl _, le_refl _⟩]
  have hIA : (stepRun traj9 defaultParams 0.1).doorA.momentOfInertia = 32108/2025 := by
    rw [stepRun_inertiaA, hrad]
    norm_num [calculateTotalMomentOfInertia, calculateDoorMomentOfInertia, defaultParams]
  have hmr : (stepRun traj9 defaultParams 0.1).doorA.massRadius = 77/90 := by
    rw [stepRun_massRadius, hrad]
  exact simState_ext htime (stepRun_isRunning traj9 defaultParams 0.1) hphase hangA hvel
    hIA (stepRun_momA traj9 defaultParams 0.1) hmr hangB hvelB
    (stepRun_inertiaB traj9 defaultParams 0.1) (stepRun_momB traj9 defaultParams 0.1)

lemma trajStep11 : updateState traj10 defaultParams 0.1 = traj11 := by
  rw [updateState_terminal defaultParams 0.1 rfl (le_of_eq rfl) (le_of_eq rfl)]
  apply simState_ext <;> norm_num [traj10, traj11]

lemma traj0_eq_start : startState (initializeState defaultParams) = traj0 := by
  apply simState_ext <;>
    norm_num [startState, initializeState, defaultParams, traj0,
      calculateDoorMomentOfInertia, calculateTotalMomentOfInertia]

lemma traj_full : iterAdvance defaultParams 0.1 11 (startState (initializeState defaultParams)) =
    traj11 := by
  rw [traj0_eq_start]
  rw [iterAdvance_succ, trajStep1, iterAdvance_succ, trajStep2, iterAdvance_succ, trajStep3,
    iterAdvance_succ, trajStep4, iterAdvance_succ, trajStep5, iterAdvance_succ, trajStep6,
    iterAdvance_succ, trajStep7, iterAdvance_succ, trajStep8, iterAdvance_succ, trajStep9,
    iterAdvance_succ, trajStep10, iterAdvance_succ, trajStep11, iterAdvance_zero]

/-- C8: starting the default run and advancing with `deltaTime = 0.1`
reaches, after finitely many ticks, a state with `isRunning = false`,
`phase = phase2`, both angular velocities `0`, and both angles within
`1e-9` of `π/2` (here: exactly `π/2`). -/
theorem claim_C8_terminal_convergence :
    ∃ N : ℕ,
      (iterAdvance defaultParams 0.1 N (startState (initializeState defaultParams))).isRunning
          = false ∧
      (iterAdvance defaultParams 0.1 N (startState (initializeState defaultParams))).phase
          = Phase.phase2 ∧
      (iterAdvance defaultParams 0.1 N
          (startState (initializeState defaultParams))).doorA.angularVelocity = 0 ∧
      (iterAdvance defaultParams 0.1 N
          (startState (initializeState defaultParams))).doorB.angularVelocity = 0 ∧
      |(iterAdvance defaultParams 0.1 N
          (startState (initializeState defaultParams))).doorA.angle - Real.pi / 2| ≤ 1e-9 ∧
      |(iterAdvance defaultParams 0.1 N
          (startState (initializeState defaultParams))).doorB.angle - Real.pi / 2| ≤ 1e-9 := by
  refine ⟨11, ?_⟩
  rw [traj_full]
  refine ⟨rfl, rfl, rfl, rfl, ?_, ?_⟩ <;>
    · show |MAX_DOOR_ANGLE - Real.pi / 2| ≤ _
      unfold MAX_DOOR_ANGLE
      norm_num
